import Mathlib

/-!
Verification development for the CT protocol recommendation batch in
`notebooks/ct_protocol_analysis.ipynb` of the `radiololgy-ct-protocoling`
repository.  The notebook reads a fixed-schema CSV table (the README
documents the exact column names), normalizes each row's eGFR value,
assembles a `patient_info` record, calls the decision engine
`generate_protocol_recommendations`, and appends one result record per row,
falling back to an all-`None` result when a row raises an exception.

The batch loop and the eGFR normalization are embedded from the notebook
source.  The decision engine itself lives in `src/utils.py`, which is not
part of the published sources; it is modelled from the specification's
ordered rule tables (spec §4.2), as noted on each such definition.
-/

/-- A raw cell of the input table: pandas yields either a missing value
(NaN, here `na`), a string, or a number.  Numbers are modelled as `Rat`. -/
inductive CellValue where
  | na : CellValue
  | str : String → CellValue
  | num : Rat → CellValue
deriving DecidableEq

/-- One raw row of the input table.  The README fixes the exact column
names (`Study ID #`, `Location [IP, ER, OP]`, `Age`, `Sex`,
`CT Exam Requested`, `Clinical Information/Reason for Scan`,
`Previous adverse reaction to contrast (if YES, what type)`,
`eGFR (mL/min)`, `Creatinine (umol/L)`); a row is the tuple of those nine
cells, any of which may be missing (`CellValue.na`). -/
structure RawRow where
  studyId : CellValue
  location : CellValue
  age : CellValue
  sex : CellValue
  ctExam : CellValue
  clinicalInfo : CellValue
  priorReaction : CellValue
  egfr : CellValue
  creatinine : CellValue
deriving DecidableEq

/-- The normalized eGFR value as the notebook produces it: either the
"no data" marker or a number.  The notebook maps the string `">90"` to the
number 90, so there is no separate above-90 sentinel in the code. -/
inductive Egfr where
  | noData : Egfr
  | num : Rat → Egfr
deriving DecidableEq

/-- The `no_data_variants` list of the notebook, verbatim:
`["no data", "No data", "NO DATA", "No Data", ""]`. -/
def no_data_variants : List String :=
  ["no data", "No data", "NO DATA", "No Data", ""]

/-- Python's `x in no_data_variants` membership test on a cell: only a
string can equal one of the listed strings. -/
def cellInNoDataVariants : CellValue → Bool
  | .str s => no_data_variants.contains s
  | _ => false

/-- `pd.isna` on a cell. -/
def cellIsNa : CellValue → Bool
  | .na => true
  | _ => false

/-- Python's `str.strip()` with no argument: remove leading and trailing
whitespace characters. -/
def pyStrip (cs : List Char) : List Char :=
  ((cs.dropWhile Char.isWhitespace).reverse.dropWhile Char.isWhitespace).reverse

/-- Digit run value, most significant first. -/
def digitsVal (ds : List Char) : Nat :=
  ds.foldl (fun a c => a * 10 + (c.toNat - 48)) 0

/-- Exponent digits of a float literal: nonempty all-digit run. -/
def parseExpDigits (cs : List Char) : Option Int :=
  if cs.isEmpty then none
  else if cs.all Char.isDigit then some (digitsVal cs : Int) else none

/-- Optionally signed exponent of a float literal. -/
def parseExpPart : List Char → Option Int
  | '+' :: t => parseExpDigits t
  | '-' :: t => (parseExpDigits t).map Neg.neg
  | t => parseExpDigits t

/-- `10 ^ e` over `Rat` for an integer exponent. -/
def ratPow10 : Int → Rat
  | .ofNat n => (10 : Rat) ^ n
  | .negSucc n => 1 / (10 : Rat) ^ (n + 1)

/-- Unsigned decimal mantissa with optional fraction and exponent:
`digits`, `digits.digits?`, `.digits`, each optionally followed by
`e`/`E` and a signed digit run.  Anything else is rejected. -/
def pyFloatCore (cs : List Char) : Option Rat :=
  let p1 := cs.span Char.isDigit
  let p2 : Option (List Char) × List Char :=
    match p1.2 with
    | '.' :: t =>
        let pf := t.span Char.isDigit
        (some pf.1, pf.2)
    | _ => (none, p1.2)
  let ip := p1.1
  let fp := p2.1.getD []
  if ip.isEmpty && fp.isEmpty then none
  else
    let mant : Rat := (digitsVal ip : Rat) + (digitsVal fp : Rat) / (10 : Rat) ^ fp.length
    match p2.2 with
    | [] => some mant
    | 'e' :: t => (parseExpPart t).map (fun e => mant * ratPow10 e)
    | 'E' :: t => (parseExpPart t).map (fun e => mant * ratPow10 e)
    | _ => none

/-- Model of Python's built-in `float` on a string: surrounding whitespace
is ignored, then an optionally signed decimal literal is parsed.  The
special spellings (`inf`, `nan`, underscore separators) are not modelled;
no theorem below depends on them. -/
def pyFloat (s : String) : Option Rat :=
  match pyStrip s.toList with
  | '+' :: t => pyFloatCore t
  | '-' :: t => (pyFloatCore t).map Neg.neg
  | t => pyFloatCore t

/-- The notebook's eGFR normalization, verbatim from the batch loop:
missing values and the listed `no_data_variants` become `"no data"`; a
string whose `strip()` equals `">90"` becomes the number 90; any other
value goes through `float(...)`, whose failure raises the row's
exception. -/
def parseEgfr : CellValue → Except String Egfr
  | .na => .ok .noData
  | .str s =>
      if no_data_variants.contains s then .ok .noData
      else if pyStrip s.toList = ['>', '9', '0'] then .ok (.num 90)
      else
        match pyFloat s with
        | some q => .ok (.num q)
        | none => .error ("could not convert string to float: " ++ s)
  | .num q =>
      if cellInNoDataVariants (.num q) then .ok .noData else .ok (.num q)

/-- The `patient_info` dictionary the notebook builds for each row: every
field is copied verbatim from the row, except `eGFR` which carries the
normalized value. -/
structure PatientInfo where
  studyId : CellValue
  location : CellValue
  age : CellValue
  sex : CellValue
  ctExam : CellValue
  clinicalInfo : CellValue
  priorReaction : CellValue
  egfr : Egfr
  creatinine : CellValue
deriving DecidableEq

/-- Row normalization as performed inside the notebook's `try` block:
parse the eGFR cell, then copy the remaining cells verbatim into
`patient_info`.  The eGFR parse is the only fallible step. -/
def normalizeRow (row : RawRow) : Except String PatientInfo :=
  (parseEgfr row.egfr).map fun e =>
    { studyId := row.studyId
      location := row.location
      age := row.age
      sex := row.sex
      ctExam := row.ctExam
      clinicalInfo := row.clinicalInfo
      priorReaction := row.priorReaction
      egfr := e
      creatinine := row.creatinine }

/-- Case-sensitive list equality at the head. -/
def listStartsWith : List Char → List Char → Bool
  | [], _ => true
  | _ :: _, [] => false
  | p :: ps, c :: cs => p == c && listStartsWith ps cs

/-- Substring containment on character lists. -/
def containsSub (pat : List Char) : List Char → Bool
  | [] => pat.isEmpty
  | c :: cs => listStartsWith pat (c :: cs) || containsSub pat cs

/-- Case-insensitive keyword containment in a text. -/
def textHasKeyword (text kw : String) : Bool :=
  containsSub (kw.toList.map Char.toLower) (text.toList.map Char.toLower)

/-- The free text carried by a cell; missing or numeric cells carry no
text. -/
def textOf : CellValue → String
  | .str s => s
  | _ => ""

/-- The three locations of the input vocabulary (README column
`Location [IP, ER, OP]`). -/
inductive PatientLocation where
  | inpatient : PatientLocation
  | emergencyRoom : PatientLocation
  | outpatient : PatientLocation
deriving DecidableEq

/-- Modelled from the spec: the decision engine in `src/utils.py` is not
among the published sources; spec §3 requires the free-text location to map
into the {Inpatient, EmergencyRoom, Outpatient} enum, with the CSV using
the abbreviations IP, ER, OP.  Unrecognized text maps to `none` and falls
through to the non-location rules (spec §4.2 failure handling). -/
def parseLoc : CellValue → Option PatientLocation
  | .str s =>
      match (pyStrip s.toList).map Char.toUpper with
      | ['E', 'R'] => some .emergencyRoom
      | ['I', 'P'] => some .inpatient
      | ['O', 'P'] => some .outpatient
      | _ => none
  | _ => none

/-- Modelled from the spec: urgency keywords for the priority rules.  Spec
§9 leaves the exact urgency keyword set open; this is a representative set
following the spec's examples of acute/urgent language. -/
def urgencyKeywords : List String := ["urgent", "acute", "emergent"]

/-- Modelled from the spec: staging/malignancy workup language (spec §4.2
priority rule 4). -/
def stagingKeywords : List String := ["staging", "malignancy", "metast", "cancer"]

/-- Modelled from the spec: explicit chest-imaging language (spec §4.2
protocol rule 2). -/
def chestKeywords : List String := ["chest", "thorax", "lung"]

/-- Modelled from the spec: renal-stone/colic workup triggers (spec §4.2
protocol rule 1 and IV rule 2). -/
def renalColicKeywords : List String := ["colic", "stone", "calculus", "nephrolithiasis"]

/-- Modelled from the spec: renal-mass specialized protocol triggers. -/
def renalMassKeywords : List String := ["renal mass"]

/-- Modelled from the spec: urogram-specific language. -/
def urogramKeywords : List String := ["urogram"]

/-- Modelled from the spec: mass-characterization (pre/post comparison)
language for the dual-phase IV rule. -/
def massCharKeywords : List String := ["characteriz", "renal mass"]

/-- Modelled from the spec: GI or ovarian-malignancy indications for oral
contrast. -/
def giOvarianKeywords : List String := ["ovarian", "gastric", "colorectal", "bowel"]

/-- Modelled from the spec: named special-preparation indications for oral
contrast. -/
def specialPrepKeywords : List String := ["readi-cat", "special preparation"]

/-- True when the exam request or the clinical information mentions one of
the keywords; the engine reads both free-text fields (spec §4.2). -/
def mentionsAny (info : PatientInfo) (kws : List String) : Bool :=
  kws.any fun k =>
    textHasKeyword (textOf info.ctExam) k || textHasKeyword (textOf info.clinicalInfo) k

/-- Urgency indicated in the record's free text. -/
def urgencyIndicated (info : PatientInfo) : Bool := mentionsAny info urgencyKeywords

/-- Staging/malignancy workup indicated. -/
def stagingIndicated (info : PatientInfo) : Bool := mentionsAny info stagingKeywords

/-- Explicit chest imaging request or chest-specific indication. -/
def chestIndicated (info : PatientInfo) : Bool := mentionsAny info chestKeywords

/-- Renal-stone/colic workup exam. -/
def renalColicExam (info : PatientInfo) : Bool := mentionsAny info renalColicKeywords

/-- Renal-mass specialized protocol trigger. -/
def renalMassExam (info : PatientInfo) : Bool := mentionsAny info renalMassKeywords

/-- Urogram-specific study. -/
def urogramExam (info : PatientInfo) : Bool := mentionsAny info urogramKeywords

/-- Mass-characterization indication (dual-phase IV rule). -/
def massCharIndicated (info : PatientInfo) : Bool := mentionsAny info massCharKeywords

/-- GI or ovarian-malignancy indication (oral contrast rule 1). -/
def giOvarianIndicated (info : PatientInfo) : Bool := mentionsAny info giOvarianKeywords

/-- Named special-preparation indication (oral contrast rule 3). -/
def specialPrepIndicated (info : PatientInfo) : Bool := mentionsAny info specialPrepKeywords

/-- Effective eGFR is contraindicated: a numeric value below 30.  The
`noData` marker is "unknown, not below threshold" (spec §4.2 IV rule 1). -/
def egfrContraindicated : Egfr → Bool
  | .num q => q < 30
  | .noData => false

/-- Effective eGFR is safe: a numeric value at or above 30 (the parsed
`">90"` input arrives here as the number 90). -/
def egfrSafe : Egfr → Bool
  | .num q => 30 ≤ q
  | .noData => false

/-- Protocol vocabulary: the generic A/P and C/A/P scopes and the
specialized protocols named by the spec. -/
inductive Protocol where
  | ap : Protocol
  | cap : Protocol
  | renalColic : Protocol
  | renalMass : Protocol
  | urogram : Protocol
deriving DecidableEq

/-- IV contrast plan vocabulary: C+, C-, or dual-phase "C+ and C-". -/
inductive IVContrast where
  | cPlus : IVContrast
  | cMinus : IVContrast
  | cPlusAndCMinus : IVContrast
deriving DecidableEq

/-- Oral contrast plan vocabulary. -/
inductive OralContrast where
  | noOral : OralContrast
  | waterBase : OralContrast
  | waterOnly : OralContrast
  | readiCat : OralContrast
  | other : OralContrast
deriving DecidableEq

/-- Modelled from the spec: priority axis of the decision engine (spec
§4.2), ordered rules, first applicable wins: ER → 1; Inpatient → 1 when
urgent else 2; Outpatient → 2 when urgent; staging without urgency → 3;
default 4. -/
def priorityOf (info : PatientInfo) : Nat :=
  match parseLoc info.location with
  | some .emergencyRoom => 1
  | some .inpatient => if urgencyIndicated info then 1 else 2
  | some .outpatient =>
      if urgencyIndicated info then 2
      else if stagingIndicated info then 3
      else 4
  | none =>
      if stagingIndicated info && !urgencyIndicated info then 3 else 4

/-- Modelled from the spec: protocol axis (spec §4.2): specialized
triggers first, then explicit chest imaging → C/A/P, else the A/P
default. -/
def protocolOf (info : PatientInfo) : Protocol :=
  if renalColicExam info then .renalColic
  else if renalMassExam info then .renalMass
  else if urogramExam info then .urogram
  else if chestIndicated info then .cap
  else .ap

/-- Modelled from the spec: IV contrast axis (spec §4.2), the renal-safety
gate: renal-stone/colic workup → C-; contraindicated eGFR → C-; mass
characterization → C+ and C-; else C+. -/
def ivContrastOf (info : PatientInfo) : IVContrast :=
  if renalColicExam info then .cMinus
  else if egfrContraindicated info.egfr then .cMinus
  else if massCharIndicated info then .cPlusAndCMinus
  else .cPlus

/-- Modelled from the spec: oral contrast axis (spec §4.2): GI/ovarian
malignancy → water base; urogram → water only; named special preparation →
other; else none. -/
def oralContrastOf (info : PatientInfo) : OralContrast :=
  if giOvarianIndicated info then .waterBase
  else if urogramExam info then .waterOnly
  else if specialPrepIndicated info then .other
  else .noOral

/-- The four decision fields the engine returns. -/
structure DecisionFields where
  priority : Nat
  protocol : Protocol
  iv_contrast : IVContrast
  oral_contrast : OralContrast
deriving DecidableEq

/-- Modelled from the spec: `generate_protocol_recommendations` of
`src/utils.py` is not among the published sources (the notebook imports
it); per spec §4.2 it is a deterministic, total rule table over the
normalized record, computing the four axes independently. -/
def generate_protocol_recommendations (info : PatientInfo) : DecisionFields :=
  { priority := priorityOf info
    protocol := protocolOf info
    iv_contrast := ivContrastOf info
    oral_contrast := oralContrastOf info }

/-- One output record as the notebook appends it to `results`: the
`Study_ID` cell plus the four decision fields, each `None` on row
failure. -/
structure ResultRecord where
  studyId : CellValue
  priority : Option Nat
  protocol : Option Protocol
  iv_contrast : Option IVContrast
  oral_contrast : Option OralContrast
deriving DecidableEq

/-- One iteration of the notebook's batch loop: normalize the row and call
the engine inside `try`; on an exception, append the `Study_ID` with all
four decision fields `None`.  The modelled engine is total (spec §4.2), so
the eGFR parse is the loop body's only exception source. -/
def processRow (row : RawRow) : ResultRecord :=
  match normalizeRow row with
  | .ok info =>
      let c := generate_protocol_recommendations info
      { studyId := row.studyId
        priority := some c.priority
        protocol := some c.protocol
        iv_contrast := some c.iv_contrast
        oral_contrast := some c.oral_contrast }
  | .error _ =>
      { studyId := row.studyId
        priority := none
        protocol := none
        iv_contrast := none
        oral_contrast := none }

/-- The notebook's batch loop over `test_data.iterrows()`: one result is
appended per row, in row order. -/
def processBatch (rows : List RawRow) : List ResultRecord :=
  rows.map processRow

/-- Sample record: ER renal-colic workup with eGFR 15 (the spec's first
end-to-end row). -/
def colicInfo : PatientInfo :=
  { studyId := .str "S1"
    location := .str "ER"
    age := .num 63
    sex := .str "M"
    ctExam := .str "renal colic workup"
    clinicalInfo := .str "flank pain"
    priorReaction := .str "none"
    egfr := .num 15
    creatinine := .num 180 }

/-- Sample record: outpatient staging workup with missing eGFR (the spec's
second end-to-end row). -/
def stagingInfo : PatientInfo :=
  { studyId := .str "S2"
    location := .str "OP"
    age := .num 70
    sex := .str "F"
    ctExam := .str "abdomen pelvis"
    clinicalInfo := .str "malignancy staging"
    priorReaction := .str "no data"
    egfr := .noData
    creatinine := .na }

/-- Sample row that normalizes successfully. -/
def goodRow : RawRow :=
  { studyId := .str "S3"
    location := .str "OP"
    age := .num 55
    sex := .str "F"
    ctExam := .str "CT abdomen pelvis"
    clinicalInfo := .str "routine followup"
    priorReaction := .str "none"
    egfr := .num 80
    creatinine := .num 70 }

/-- Sample row whose eGFR cell fails `float` conversion. -/
def badEgfrRow : RawRow :=
  { studyId := .str "S4"
    location := .str "IP"
    age := .num 40
    sex := .str "M"
    ctExam := .str "CT abdomen"
    clinicalInfo := .str "abdominal pain"
    priorReaction := .str "none"
    egfr := .str "abc"
    creatinine := .num 90 }

/-- Sample row whose eGFR cell holds a mixed-case "no data" spelling that
is absent from the notebook's `no_data_variants` list. -/
def mixedCaseRow : RawRow :=
  { studyId := .str "S5"
    location := .str "OP"
    age := .num 50
    sex := .str "F"
    ctExam := .str "CT abdomen pelvis"
    clinicalInfo := .str "routine followup"
    priorReaction := .str "none"
    egfr := .str "nO dAtA"
    creatinine := .num 75 }

/-- Sample row whose location text maps into none of the three locations
of the input vocabulary. -/
def marsRow : RawRow :=
  { studyId := .str "S6"
    location := .str "Mars"
    age := .num 45
    sex := .str "M"
    ctExam := .str "CT abdomen"
    clinicalInfo := .str "routine followup"
    priorReaction := .str "none"
    egfr := .num 80
    creatinine := .num 70 }

/-- The normalized record `marsRow` produces. -/
def marsInfo : PatientInfo :=
  { studyId := .str "S6"
    location := .str "Mars"
    age := .num 45
    sex := .str "M"
    ctExam := .str "CT abdomen"
    clinicalInfo := .str "routine followup"
    priorReaction := .str "none"
    egfr := .num 80
    creatinine := .num 70 }

/-- Sample record with contraindicated eGFR and a mass-characterization
indication, exercising the renal-safety override. -/
def lowEgfrInfo : PatientInfo :=
  { studyId := .str "S7"
    location := .str "OP"
    age := .num 66
    sex := .str "F"
    ctExam := .str "CT abdomen renal mass characterization"
    clinicalInfo := .str "renal mass followup"
    priorReaction := .str "none"
    egfr := .num 20
    creatinine := .num 200 }

/-- Sample row whose eGFR cell is the literal "no data". -/
def noDataRow : RawRow :=
  { studyId := .str "S8"
    location := .str "OP"
    age := .num 58
    sex := .str "M"
    ctExam := .str "CT abdomen pelvis"
    clinicalInfo := .str "routine followup"
    priorReaction := .str "none"
    egfr := .str "no data"
    creatinine := .na }

/-- The normalized record `noDataRow` produces. -/
def noDataInfo : PatientInfo :=
  { studyId := .str "S8"
    location := .str "OP"
    age := .num 58
    sex := .str "M"
    ctExam := .str "CT abdomen pelvis"
    clinicalInfo := .str "routine followup"
    priorReaction := .str "none"
    egfr := .noData
    creatinine := .na }

example : parseEgfr (.str " >90 ") = .ok (.num 90) := by rfl
example : parseEgfr (.str "No Data") = .ok .noData := by rfl
example : (pyFloat "45.5").isSome = true := by rfl
example : pyFloat "abc" = none := by rfl
example : pyFloat "" = none := by rfl
example : parseEgfr (.na) = .ok .noData := by rfl

example :
    generate_protocol_recommendations colicInfo =
      { priority := 1, protocol := .renalColic, iv_contrast := .cMinus,
        oral_contrast := .noOral } := by decide

example :
    generate_protocol_recommendations stagingInfo =
      { priority := 3, protocol := .ap, iv_contrast := .cPlus,
        oral_contrast := .noOral } := by decide

example : normalizeRow noDataRow = .ok noDataInfo := by rfl

/-- C1: for every record whose effective eGFR is a numeric value below 30
and whose exam is not a renal-stone/colic workup, the engine's IV contrast
output is C-; since the record is otherwise arbitrary, the renal-safety
rule overrides the mass-characterization rule and the C+ default. -/
theorem egfr_below_30_forces_cminus (info : PatientInfo) (q : Rat)
    (hq : info.egfr = .num q) (h30 : q < 30) (hns : renalColicExam info = false) :
    (generate_protocol_recommendations info).iv_contrast = .cMinus := by
  simp [generate_protocol_recommendations, ivContrastOf, hns, egfrContraindicated, hq, h30]

/-- Witness for C1 at a record that also carries a mass-characterization
indication, so the overridden dual-phase rule would otherwise fire. -/
theorem egfr_below_30_forces_cminus_witness :
    lowEgfrInfo.egfr = .num 20 ∧ (20 : Rat) < 30 ∧
      renalColicExam lowEgfrInfo = false ∧ massCharIndicated lowEgfrInfo = true ∧
      (generate_protocol_recommendations lowEgfrInfo).iv_contrast = .cMinus :=
  ⟨rfl, by decide, by decide, by decide,
    egfr_below_30_forces_cminus lowEgfrInfo 20 rfl (by decide) (by decide)⟩

/-- C2 counterexample: the notebook parses `">90"` (surrounding whitespace
ignored) to the number 90, the very same representation that a numeric 90
parses to — there is no distinct `GreaterThan90` sentinel and the
distinction cannot round-trip. -/
theorem gt90_parse_equals_numeric_90_parse :
    parseEgfr (.str " >90 ") = .ok (.num 90)
    ∧ parseEgfr (.num 90) = .ok (.num 90)
    ∧ parseEgfr (.str " >90 ") = parseEgfr (.num 90) :=
  ⟨rfl, rfl, rfl⟩

/-- C2 amended: parsing `">90"` (ignoring surrounding whitespace) yields
the numeric value 90, identical in representation to a numeric 90, and
that value satisfies the "safe" predicate of the IV-contrast gate. -/
theorem gt90_yields_numeric_90_safe :
    parseEgfr (.str ">90") = .ok (.num 90)
    ∧ egfrSafe (.num 90) = true
    ∧ egfrContraindicated (.num 90) = false :=
  ⟨rfl, by decide, by decide⟩

/-- C3: when normalization of a row fails, the loop emits a result record
with the row's `Study_ID` and all four decision fields `None`, and the
batch output around that row is exactly the concatenation of the other
rows' outputs — no row's failure aborts processing of the rest. -/
theorem row_failure_yields_null_record_and_batch_continues
    (row : RawRow) (e : String) (pre post : List RawRow)
    (h : normalizeRow row = .error e) :
    processRow row =
      { studyId := row.studyId, priority := none, protocol := none,
        iv_contrast := none, oral_contrast := none }
    ∧ processBatch (pre ++ row :: post) =
        processBatch pre ++ processRow row :: processBatch post := by
  constructor
  · simp [processRow, h]
  · simp [processBatch]

/-- Witness for C3 at a row whose eGFR string fails `float` conversion,
placed between two well-formed rows. -/
theorem row_failure_witness :
    normalizeRow badEgfrRow = .error "could not convert string to float: abc"
    ∧ (processRow badEgfrRow =
        { studyId := badEgfrRow.studyId, priority := none, protocol := none,
          iv_contrast := none, oral_contrast := none }
      ∧ processBatch ([goodRow] ++ badEgfrRow :: [goodRow]) =
          processBatch [goodRow] ++ processRow badEgfrRow :: processBatch [goodRow]) :=
  ⟨rfl,
    row_failure_yields_null_record_and_batch_continues badEgfrRow
      "could not convert string to float: abc" [goodRow] [goodRow] rfl⟩

/-- C4: every record in the batch output has its four decision fields
either all `None` together or all populated together. -/
theorem result_fields_all_null_or_all_populated
    (rows : List RawRow) (rec : ResultRecord) (h : rec ∈ processBatch rows) :
    (rec.priority = none ∧ rec.protocol = none
      ∧ rec.iv_contrast = none ∧ rec.oral_contrast = none)
    ∨ (rec.priority ≠ none ∧ rec.protocol ≠ none
      ∧ rec.iv_contrast ≠ none ∧ rec.oral_contrast ≠ none) := by
  simp only [processBatch] at h
  obtain ⟨row, hmem, hrow⟩ := List.mem_map.mp h
  subst hrow
  cases hn : normalizeRow row with
  | ok info => right; simp [processRow, hn]
  | error e => left; simp [processRow, hn]

/-- Witness for C4 on a one-row batch. -/
theorem result_fields_witness :
    processRow goodRow ∈ processBatch [goodRow]
    ∧ (((processRow goodRow).priority = none ∧ (processRow goodRow).protocol = none
        ∧ (processRow goodRow).iv_contrast = none ∧ (processRow goodRow).oral_contrast = none)
      ∨ ((processRow goodRow).priority ≠ none ∧ (processRow goodRow).protocol ≠ none
        ∧ (processRow goodRow).iv_contrast ≠ none ∧ (processRow goodRow).oral_contrast ≠ none)) :=
  ⟨by simp [processBatch],
    result_fields_all_null_or_all_populated [goodRow] (processRow goodRow)
      (by simp [processBatch])⟩

/-- C5 counterexample: the mixed-case spelling "nO dAtA" is not in the
notebook's `no_data_variants` list, so it is not mapped to the no-data
marker — it falls through to `float` conversion, which raises, and the
row becomes an all-`None` result instead. -/
theorem mixed_case_no_data_not_mapped :
    parseEgfr (.str "nO dAtA") = .error "could not convert string to float: nO dAtA"
    ∧ parseEgfr (.str "nO dAtA") ≠ .ok .noData
    ∧ (processRow mixedCaseRow).priority = none := by
  refine ⟨rfl, ?_, rfl⟩
  intro hcontra
  rw [show parseEgfr (.str "nO dAtA")
        = Except.error "could not convert string to float: nO dAtA" from rfl] at hcontra
  exact Except.noConfusion hcontra

/-- C5 amended: the normalizer maps exactly the four listed spellings
"no data", "No data", "NO DATA", "No Data", the empty string, and a
missing cell to the no-data marker; no other input (in particular no other
case variant of "no data") is mapped to it. -/
theorem parse_egfr_nodata_characterization (cell : CellValue) :
    parseEgfr cell = .ok .noData ↔
      (cell = .na ∨ ∃ s, cell = .str s ∧ s ∈ no_data_variants) := by
  cases cell with
  | na => simp [parseEgfr]
  | str s =>
      by_cases hm : s ∈ no_data_variants
      · have hc : no_data_variants.contains s = true := by simp [hm]
        simp [parseEgfr, hc, hm]
      · have hc : no_data_variants.contains s = false := by simp [hm]
        by_cases h90 : pyStrip s.data = ['>', '9', '0']
        · simp [parseEgfr, hc, h90, hm]
        · cases hp : pyFloat s with
          | some q => simp [parseEgfr, hc, h90, hp, hm]
          | none => simp [parseEgfr, hc, h90, hp, hm]
  | num q => simp [parseEgfr, cellInNoDataVariants]

/-- C6: a record whose eGFR is the no-data marker still yields a populated
decision (the row's output carries the engine's fields, not `None`), and
missing eGFR alone never forces C-: when the exam is not a renal-colic
workup the IV output is not C-. -/
theorem nodata_decision_succeeds_not_cminus (info : PatientInfo) (row : RawRow)
    (hnd : info.egfr = .noData) (hns : renalColicExam info = false)
    (hrow : normalizeRow row = .ok info) :
    (generate_protocol_recommendations info).iv_contrast ≠ .cMinus
    ∧ (processRow row).priority = some (generate_protocol_recommendations info).priority
    ∧ (processRow row).iv_contrast = some (generate_protocol_recommendations info).iv_contrast := by
  refine ⟨?_, ?_, ?_⟩
  · cases hmc : massCharIndicated info <;>
      simp [generate_protocol_recommendations, ivContrastOf, hns, hnd,
        egfrContraindicated, hmc]
  · simp [processRow, hrow]
  · simp [processRow, hrow]

/-- Witness for C6 at a row whose eGFR cell is the literal "no data". -/
theorem nodata_decision_witness :
    noDataInfo.egfr = .noData ∧ renalColicExam noDataInfo = false
    ∧ normalizeRow noDataRow = .ok noDataInfo
    ∧ ((generate_protocol_recommendations noDataInfo).iv_contrast ≠ .cMinus
      ∧ (processRow noDataRow).priority
          = some (generate_protocol_recommendations noDataInfo).priority
      ∧ (processRow noDataRow).iv_contrast
          = some (generate_protocol_recommendations noDataInfo).iv_contrast) :=
  ⟨rfl, by decide, rfl,
    nodata_decision_succeeds_not_cminus noDataInfo noDataRow rfl (by decide) rfl⟩

/-- C7: every record whose location maps to the emergency room gets
priority 1, whatever its other fields. -/
theorem er_location_priority_one (info : PatientInfo)
    (h : parseLoc info.location = some .emergencyRoom) :
    (generate_protocol_recommendations info).priority = 1 := by
  simp [generate_protocol_recommendations, priorityOf, h]

/-- Witness for C7 at the ER renal-colic record. -/
theorem er_location_priority_one_witness :
    parseLoc colicInfo.location = some .emergencyRoom
    ∧ (generate_protocol_recommendations colicInfo).priority = 1 :=
  ⟨by decide, er_location_priority_one colicInfo (by decide)⟩

/-- C8 counterexample: a row whose location text "Mars" maps into none of
{IP, ER, OP} is not rejected — normalization succeeds, the record reaches
the engine with the text verbatim, and a populated recommendation is
produced. -/
theorem out_of_enum_location_not_rejected :
    parseLoc marsRow.location = none
    ∧ normalizeRow marsRow = .ok marsInfo
    ∧ (processRow marsRow).priority = some 4 :=
  ⟨by decide, rfl, rfl⟩

/-- C8 amended: the location text is not validated against the
{Inpatient, EmergencyRoom, Outpatient} vocabulary; normalization passes it
through verbatim to the record handed to the decision engine, and an
out-of-vocabulary location does not fail the row. -/
theorem location_passed_through_unvalidated (row : RawRow) (info : PatientInfo)
    (h : normalizeRow row = .ok info) : info.location = row.location := by
  cases hp : parseEgfr row.egfr with
  | ok e =>
      simp [normalizeRow, hp, Except.map] at h
      subst h
      rfl
  | error e => simp [normalizeRow, hp, Except.map] at h

/-- Witness for C8's amended statement at the "Mars" row. -/
theorem location_passed_through_witness :
    normalizeRow marsRow = .ok marsInfo ∧ marsInfo.location = marsRow.location :=
  ⟨rfl, location_passed_through_unvalidated marsRow marsInfo rfl⟩

/-- C9: the per-record decision is deterministic and idempotent, and a
record's result in a batch equals its standalone result whatever rows
surround it — processing order of other records cannot influence it. -/
theorem decision_deterministic_and_order_insensitive (info : PatientInfo)
    (pre post : List RawRow) (row : RawRow) :
    generate_protocol_recommendations info = generate_protocol_recommendations info
    ∧ processBatch (pre ++ row :: post)
        = processBatch pre ++ processRow row :: processBatch post :=
  ⟨rfl, by simp [processBatch]⟩

/-- C10: batch processing emits exactly one result per input row and
preserves input order: the i-th output is the processed i-th input row. -/
theorem batch_one_output_per_row_in_order (rows : List RawRow) (i : Nat) :
    (processBatch rows).length = rows.length
    ∧ (processBatch rows)[i]? = (rows[i]?).map processRow := by
  constructor
  · simp [processBatch]
  · simp [processBatch]
